import Mathlib

/-!
# Clean Eats Stockist Map — verification of the client filtering core

Shallow embedding of the client-side filtering and spatial-matching engine
of the stockist-map application (`src/script.js`, with the
`src/unnamed/part_000` variant where the two differ), together with the
registry-load step of `init`.

Modelling conventions:
* JS strings are Lean `String`s; nullable string fields (`row.name`,
  `row.postcode`) are `Option String` (`none` models `null`/`undefined`).
* `parseFloat(row.latitude)` is modelled by a field `latitude : Option ℚ`
  on the feed record: `none` models the `NaN` outcome of the parse,
  `some q` a successfully parsed finite number. Coordinates are rationals.
* The haversine `distanceKm` computes with floating-point trigonometry;
  every operation that consumes it is parameterised over an abstract
  distance function `dist : Coord → Coord → ℚ`, so the theorems hold for
  the distance function the code actually uses (and any other).
* The asynchronous geocoder (`geocodePostcodeAU`) is an external service;
  its outcome is passed to `applyFilters` as an `Option Coord`
  (`none` models a failed lookup / empty result set).
* The `fitBounds` outcome of the map-rendering library is external as well:
  the viewport helpers are parameterised over `fit : List Coord → MapState`,
  the state the library would settle at when fitting the bounds of a
  coordinate list (before any `maxZoom` cap or minimum-zoom correction
  applied by the code under verification).
-/

/-- A geographic coordinate (decimal degrees). -/
structure Coord where
  lat : ℚ
  lng : ℚ
deriving DecidableEq

/-- A stockist as stored in the in-memory registry (`markers[i].data` in
`script.js`): the feed row enriched with the uppercased `state` and the
parsed `lat`/`lng`. Fields not consulted by the filtering core are omitted. -/
structure Stockist where
  name : Option String
  postcode : Option String
  state : String
  lat : ℚ
  lng : ℚ
deriving DecidableEq

/-- The coordinate of a stockist. -/
def Stockist.coord (s : Stockist) : Coord := ⟨s.lat, s.lng⟩

/-- The raw filter-control values read from the three inputs
(`search-name`, `search-postcode`, `state-select`), before the
normalisation done at the top of `applyFilter`. -/
structure Criteria where
  name : String
  postcode : String
  state : String
deriving DecidableEq

/-- JS `s.includes(pat)`: `pat` occurs as a contiguous substring of `s`;
the empty pattern matches every string. -/
def strContains (s pat : String) : Bool :=
  (List.range (s.length + 1)).any (fun i => pat.toList.isPrefixOf (s.toList.drop i))

/-- JS `s.toLowerCase()` (ASCII model). -/
def jsToLower (s : String) : String := ⟨s.toList.map Char.toLower⟩

/-- JS `s.toUpperCase()` (ASCII model). -/
def jsToUpper (s : String) : String := ⟨s.toList.map Char.toUpper⟩

/-- JS `s.trim()`: strip leading and trailing whitespace. -/
def jsTrim (s : String) : String :=
  ⟨((s.toList.dropWhile Char.isWhitespace).reverse.dropWhile Char.isWhitespace).reverse⟩

/-- `matchesName` of `applyFilter`:
`data.name` (or the empty string when missing), lowercased, must include `nameVal`. -/
def matchesName (s : Stockist) (nameVal : String) : Bool :=
  strContains (jsToLower (s.name.getD "")) nameVal

/-- `matchesPostcode` of `applyFilter`:
`data.postcode?.includes(postcodeVal)` — optional chaining yields a falsy
`undefined` when the stockist has no postcode. -/
def matchesPostcode (s : Stockist) (postcodeVal : String) : Bool :=
  match s.postcode with
  | some p => strContains p postcodeVal
  | none => false

/-- `matchesState` of `applyFilter`: `!stateVal || data.state === stateVal`. -/
def matchesState (s : Stockist) (stateVal : String) : Bool :=
  stateVal == "" || s.state == stateVal

/-- Pass 1 of `applyFilter` (`markers.filter(...)`), after normalising the
raw inputs: `nameVal = (...).toLowerCase()`, `postcodeVal = (...).trim()`,
`stateVal = (...).toUpperCase()`. -/
def pass1 (registry : List Stockist) (c : Criteria) : List Stockist :=
  registry.filter (fun s =>
    matchesName s (jsToLower c.name) &&
    matchesPostcode s (jsTrim c.postcode) &&
    matchesState s (jsToUpper c.state))

/-- `RADIUS_KM_POSTCODE` of `script.js` (`RADIUS_KM` in `part_000`). -/
def RADIUS_KM_POSTCODE : ℚ := 5

/-- `RADIUS_KM_NEAR_ME` of `script.js`. -/
def RADIUS_KM_NEAR_ME : ℚ := 10

/-- The visible set computed by `applyFilter` of `script.js`:
pass 1 (direct matches), then — only when the trimmed postcode input is
non-empty and pass 1 matched nothing — the 5 km radius fallback around the
geocoded postcode (`geocode`, the outcome of `geocodePostcodeAU`); when
geocoding fails the pass-1 (empty) set is kept. -/
def applyFilters (dist : Coord → Coord → ℚ) (registry : List Stockist)
    (c : Criteria) (geocode : Option Coord) : List Stockist :=
  let visible := pass1 registry c
  if jsTrim c.postcode ≠ "" ∧ visible = [] then
    match geocode with
    | some center =>
        registry.filter (fun s => dist center s.coord ≤ RADIUS_KM_POSTCODE)
    | none => visible
  else visible

/-- The radius query of the spec (`nearby(registry, origin, radiusKm)`):
the filter `distanceKm(lat, lng, data.lat, data.lng) <= r` over the
registry, as used inside `applyNearby` and the postcode fallback. -/
def nearby (dist : Coord → Coord → ℚ) (registry : List Stockist)
    (origin : Coord) (r : ℚ) : List Stockist :=
  registry.filter (fun s => dist origin s.coord ≤ r)

/-- The visible set computed by `applyNearby` of `script.js` ("Use my
location"): all stockists within `RADIUS_KM_NEAR_ME` of the device
position; the text-filter inputs are not consulted. -/
def applyNearby (dist : Coord → Coord → ℚ) (registry : List Stockist)
    (origin : Coord) : List Stockist :=
  registry.filter (fun s => dist origin s.coord ≤ RADIUS_KM_NEAR_ME)

/-- One record of the `/api/stockists.json` feed as consumed by `init`,
with `latitude`/`longitude` holding the result of `parseFloat` (`none`
models `NaN`). -/
structure FeedRow where
  name : Option String
  province : Option String
  postcode : Option String
  latitude : Option ℚ
  longitude : Option ℚ
deriving DecidableEq

/-- The state of a feed row in `init`: `row.province` (or the empty string
when missing), uppercased. -/
def rowState (r : FeedRow) : String := jsToUpper (r.province.getD "")

/-- The state-dropdown option codes collected by `init`: every non-empty
uppercased `province` is added to `uniqueStates` *before* the coordinate
check (`if (Number.isNaN(lat) || Number.isNaN(lng)) return;`). Membership
in this list models membership in the `uniqueStates` set. -/
def initStates (feed : List FeedRow) : List String :=
  (feed.map rowState).filter (fun st => st ≠ "")

/-- The registry built by `init`: each feed row whose `parseFloat`ed
latitude and longitude are both non-`NaN` becomes a registry stockist;
rows with a `NaN` coordinate are skipped (`return`) and enter neither the
marker array nor the sidebar list. -/
def initRegistry (feed : List FeedRow) : List Stockist :=
  feed.filterMap (fun r =>
    match r.latitude, r.longitude with
    | some lat, some lng =>
        some { name := r.name, postcode := r.postcode,
               state := rowState r, lat := lat, lng := lng }
    | _, _ => none)

/-- The map viewport as far as the fitting helpers observe it. -/
structure MapState where
  center : Coord
  zoom : ℚ
deriving DecidableEq

/-- `MIN_FIT_ZOOM` of `part_000`. -/
def MIN_FIT_ZOOM : ℚ := 6

/-- `fitToCoords` of `script.js`: no-op on an empty list, otherwise
`map.fitBounds(bounds, { padding: 40, duration: 200, maxZoom: 12 })` —
the library fits the bounds but never zooms in past 12. `fit` is the
state at which the unconstrained fit of the library would settle. -/
def fitToCoords (fit : List Coord → MapState) (coords : List Coord)
    (st : MapState) : MapState :=
  if coords = [] then st
  else
    let fitted := fit coords
    { fitted with zoom := min fitted.zoom 12 }

/-- `fitToCoords` of `part_000`: no-op on an empty list, otherwise
`map.fitBounds(bounds, { padding: 40, duration: 200 })` followed (after
the move settles) by `if (map.getZoom() < MIN_FIT_ZOOM) map.easeTo({ zoom:
MIN_FIT_ZOOM })`. -/
def fitToCoordsV0 (fit : List Coord → MapState) (coords : List Coord)
    (st : MapState) : MapState :=
  if coords = [] then st
  else
    let fitted := fit coords
    if fitted.zoom < MIN_FIT_ZOOM then { fitted with zoom := MIN_FIT_ZOOM }
    else fitted

/-- `MOBILE_MAX_ITEMS` of `script.js`. -/
def MOBILE_MAX_ITEMS : Nat := 10

/-- The sidebar-list rendering step of `applyFilter` in `script.js`:
on mobile, when the visible set exceeds `MOBILE_MAX_ITEMS`, only the first
`MOBILE_MAX_ITEMS` items are rendered and the "Show more" affordance is
shown with the total count (`Show all (${visible.length})`); otherwise the
whole visible set is rendered and the affordance is hidden. The second
component is the affordance: `some n` = shown displaying count `n`,
`none` = hidden. -/
def renderList (mobile : Bool) (visible : List Stockist) :
    List Stockist × Option Nat :=
  if mobile ∧ visible.length > MOBILE_MAX_ITEMS then
    (visible.take MOBILE_MAX_ITEMS, some visible.length)
  else (visible, none)

/-- The `showMoreBtn.onclick` handler of `applyFilter`: re-renders the
full visible set and hides the affordance
(`showMoreBtn.style.display` is set to none). -/
def showAllClick (visible : List Stockist) : List Stockist × Option Nat :=
  (visible, none)

/-! ## Helper lemmas -/

/-- The empty pattern is a substring of every string (JS
`s.includes(emptyString)` is always true). -/
theorem strContains_empty (s : String) : strContains s "" = true := by
  unfold strContains
  rw [List.any_eq_true]
  exact ⟨0, by simp, by simp⟩

/-- A stockist that matches some postcode pattern has a postcode, hence
matches the empty pattern. -/
theorem matchesPostcode_empty_of (s : Stockist) (pv : String)
    (h : matchesPostcode s pv = true) : matchesPostcode s "" = true := by
  cases hp : s.postcode with
  | none => rw [matchesPostcode, hp] at h; exact absurd h (by simp)
  | some p => rw [matchesPostcode, hp]; exact strContains_empty p

/-- The empty state filter accepts every stockist. -/
theorem matchesState_empty (s : Stockist) : matchesState s "" = true := by
  simp [matchesState]

/-- The empty name pattern accepts every stockist. -/
theorem matchesName_empty (s : Stockist) : matchesName s "" = true :=
  strContains_empty _

/-- Lowercasing the empty string gives the empty string. -/
theorem jsToLower_empty : jsToLower "" = "" := rfl

/-- Uppercasing the empty string gives the empty string. -/
theorem jsToUpper_empty : jsToUpper "" = "" := rfl

/-- Trimming the empty string gives the empty string. -/
theorem jsTrim_empty : jsTrim "" = "" := rfl

/-! ## Concrete fixtures used by witnesses and counterexamples -/

/-- A degenerate distance function (used only to instantiate theorems at
concrete inputs; all theorems hold for every distance function). -/
def dist0 : Coord → Coord → ℚ := fun _ _ => 0

/-- A stockist fixture: a located NSW stockist with postcode 2000. -/
def acme : Stockist :=
  { name := some "Acme", postcode := some "2000", state := "NSW",
    lat := -33, lng := 151 }

/-- A stockist fixture with no postcode on record. -/
def noPc : Stockist :=
  { name := some "No Postcode", postcode := none, state := "VIC",
    lat := -37, lng := 144 }

/-- A feed-row fixture whose latitude parses to an out-of-range number. -/
def badRow : FeedRow :=
  { name := some "Far North", province := some "NSW",
    postcode := some "2000", latitude := some 999, longitude := some 0 }

/-- The registry stockist that `init` builds from `badRow`. -/
def badStockist : Stockist :=
  { name := some "Far North", postcode := some "2000", state := "NSW",
    lat := 999, lng := 0 }

/-- A feed-row fixture with a postcode-less record and valid coordinates. -/
def noPcRow : FeedRow :=
  { name := some "No Postcode", province := some "VIC", postcode := none,
    latitude := some (-37), longitude := some 144 }

/-- A feed-row fixture whose latitude fails to parse (`NaN`) but which
carries a region code seen nowhere else. -/
def ghostRow : FeedRow :=
  { name := some "Ghost", province := some "xx", postcode := some "0000",
    latitude := none, longitude := some 0 }

/-- The feed row that `init` turns into `acme`. -/
def acmeRow : FeedRow :=
  { name := some "Acme", province := some "nsw", postcode := some "2000",
    latitude := some (-33), longitude := some 151 }

/-! ## Claims -/

/-- C1: with a non-empty (trimmed) postcode filter, the radius fallback of
`applyFilters` runs iff pass 1 is empty: if pass 1 is non-empty the result
is the pass-1 set (the fallback never runs); if pass 1 is empty and the
postcode geocodes, the visible set is replaced by exactly the stockists
within `RADIUS_KM_POSTCODE` = 5 km (inclusive) of the resolved point — a
pure distance filter that ignores the name and state filters; if geocoding
fails the visible set remains empty. -/
theorem applyFilters_fallback_characterisation
    (dist : Coord → Coord → ℚ) (registry : List Stockist) (c : Criteria)
    (geocode : Option Coord) (hpc : jsTrim c.postcode ≠ "") :
    (pass1 registry c ≠ [] →
      applyFilters dist registry c geocode = pass1 registry c) ∧
    (pass1 registry c = [] → ∀ center, geocode = some center →
      applyFilters dist registry c geocode =
        registry.filter (fun s => dist center s.coord ≤ RADIUS_KM_POSTCODE)) ∧
    (pass1 registry c = [] → geocode = none →
      applyFilters dist registry c geocode = []) ∧
    RADIUS_KM_POSTCODE = 5 := by
  refine ⟨?_, ?_, ?_, rfl⟩
  · intro h
    rw [applyFilters.eq_def, if_neg (fun hc => h hc.2)]
  · intro h center hg
    rw [applyFilters.eq_def, if_pos ⟨hpc, h⟩, hg]
  · intro h hg
    rw [applyFilters.eq_def, if_pos ⟨hpc, h⟩, hg, h]

/-- Witness for C1 at a concrete input: postcode 9999 matches nothing in
the one-stockist registry, so a successful geocode pulls in the stockist
within radius and a failed geocode leaves the set empty. -/
theorem applyFilters_fallback_characterisation_w :
    applyFilters dist0 [acme] ⟨"", "9999", ""⟩ (some ⟨0, 0⟩) =
      [acme].filter (fun s => dist0 ⟨0, 0⟩ s.coord ≤ RADIUS_KM_POSTCODE) ∧
    applyFilters dist0 [acme] ⟨"", "9999", ""⟩ none = [] := by
  constructor
  · exact (applyFilters_fallback_characterisation dist0 [acme] ⟨"", "9999", ""⟩
      (some ⟨0, 0⟩) (by decide)).2.1 (by decide) ⟨0, 0⟩ rfl
  · exact (applyFilters_fallback_characterisation dist0 [acme] ⟨"", "9999", ""⟩
      none (by decide)).2.2.1 (by decide) rfl

/-- C2 counterexample: the claim "every member of `applyFilters(R,C)`
satisfies all three predicates of C" fails once the radius fallback fires —
here `acme` is returned for criteria with postcode 9999 although its own
postcode 2000 does not contain 9999. -/
theorem applyFilters_pred_cex :
    applyFilters dist0 [acme] ⟨"", "9999", ""⟩ (some ⟨0, 0⟩) = [acme] ∧
    matchesPostcode acme (jsTrim "9999") = false := by
  constructor
  · rw [applyFilters.eq_def, if_pos ⟨by decide, by decide⟩]
    decide
  · decide

/-- C2 amended: `applyFilters(R,C)` is always a subset of R; every member
of the pass-1 set satisfies all three predicates of C; and whenever the
radius fallback does not replace the set (pass 1 non-empty, or empty
postcode filter, or failed geocode) the result is exactly the pass-1 set,
so all its members satisfy the three predicates. -/
theorem applyFilters_subset_and_preds
    (dist : Coord → Coord → ℚ) (registry : List Stockist) (c : Criteria)
    (geocode : Option Coord) :
    (∀ s, s ∈ applyFilters dist registry c geocode → s ∈ registry) ∧
    (∀ s, s ∈ pass1 registry c →
      matchesName s (jsToLower c.name) = true ∧
      matchesPostcode s (jsTrim c.postcode) = true ∧
      matchesState s (jsToUpper c.state) = true) ∧
    ((pass1 registry c ≠ [] ∨ jsTrim c.postcode = "" ∨ geocode = none) →
      applyFilters dist registry c geocode = pass1 registry c) := by
  refine ⟨?_, ?_, ?_⟩
  · intro s hs
    by_cases hc : jsTrim c.postcode ≠ "" ∧ pass1 registry c = []
    · rw [applyFilters.eq_def, if_pos hc] at hs
      cases geocode with
      | some center => exact (List.mem_filter.1 hs).1
      | none => exact (List.mem_filter.1 hs).1
    · rw [applyFilters.eq_def, if_neg hc] at hs
      exact (List.mem_filter.1 hs).1
  · intro s hs
    have h := (List.mem_filter.1 hs).2
    rw [Bool.and_eq_true, Bool.and_eq_true] at h
    exact ⟨h.1.1, h.1.2, h.2⟩
  · intro h
    rcases h with h | h | h
    · rw [applyFilters.eq_def, if_neg (fun hc => h hc.2)]
    · rw [applyFilters.eq_def, if_neg (fun hc => hc.1 h)]
    · subst h
      by_cases hc : jsTrim c.postcode ≠ "" ∧ pass1 registry c = []
      · rw [applyFilters.eq_def, if_pos hc, hc.2]
      · rw [applyFilters.eq_def, if_neg hc]

/-- Witness for C2 at a concrete input: with empty criteria the visible
set is the pass-1 set and its member is drawn from the registry. -/
theorem applyFilters_subset_and_preds_w :
    (acme ∈ [acme]) ∧
    applyFilters dist0 [acme] ⟨"", "", ""⟩ none = pass1 [acme] ⟨"", "", ""⟩ ∧
    matchesName acme (jsToLower "") = true := by
  refine ⟨?_, ?_, ?_⟩
  · exact (applyFilters_subset_and_preds dist0 [acme] ⟨"", "", ""⟩ none).1
      acme (by decide)
  · exact (applyFilters_subset_and_preds dist0 [acme] ⟨"", "", ""⟩ none).2.2
      (Or.inr (Or.inl rfl))
  · exact ((applyFilters_subset_and_preds dist0 [acme] ⟨"", "", ""⟩ none).2.1
      acme (by decide)).1

/-- C3 counterexample: strengthening the postcode filter from empty to
9999 (name and state unchanged) grows the visible set from 0 to 1
members, because the now-empty pass 1 triggers the radius fallback, which
ignores the name filter. `applyFilters` is therefore not monotone. -/
theorem applyFilters_monotone_cex :
    (applyFilters dist0 [acme] ⟨"zzz", "", ""⟩ (some ⟨0, 0⟩)).length = 0 ∧
    (applyFilters dist0 [acme] ⟨"zzz", "9999", ""⟩ (some ⟨0, 0⟩)).length = 1 := by
  constructor
  · rw [applyFilters.eq_def, if_neg (fun hc => hc.1 rfl)]
    decide
  · rw [applyFilters.eq_def, if_pos ⟨by decide, by decide⟩]
    decide

/-- C3 amended: pass 1 of the filter (the direct match) is monotone —
strengthening any one filter dimension from empty to an arbitrary value,
leaving the other two unchanged, never increases the size of the pass-1
set. (The full `applyFilters` is not monotone; see the counterexample.) -/
theorem pass1_monotone (registry : List Stockist) (c c' : Criteria)
    (h : (c.name = "" ∧ c'.postcode = c.postcode ∧ c'.state = c.state) ∨
         (c.postcode = "" ∧ c'.name = c.name ∧ c'.state = c.state) ∨
         (c.state = "" ∧ c'.name = c.name ∧ c'.postcode = c.postcode)) :
    (pass1 registry c').length ≤ (pass1 registry c).length := by
  apply List.Sublist.length_le
  apply List.monotone_filter_right
  intro s hs
  rw [Bool.and_eq_true, Bool.and_eq_true] at hs ⊢
  obtain ⟨⟨hn, hp⟩, hst⟩ := hs
  rcases h with ⟨h1, h2, h3⟩ | ⟨h1, h2, h3⟩ | ⟨h1, h2, h3⟩
  · rw [h2] at hp; rw [h3] at hst
    rw [h1, jsToLower_empty]
    exact ⟨⟨matchesName_empty s, hp⟩, hst⟩
  · rw [h2] at hn; rw [h3] at hst
    rw [h1, jsTrim_empty]
    exact ⟨⟨hn, matchesPostcode_empty_of s _ hp⟩, hst⟩
  · rw [h2] at hn; rw [h3] at hp
    rw [h1, jsToUpper_empty]
    exact ⟨⟨hn, hp⟩, matchesState_empty s⟩

/-- Witness for C3 (amended) at a concrete input: within pass 1, adding
the postcode constraint 9999 to an empty-criteria search does not grow
the set. -/
theorem pass1_monotone_w :
    (pass1 [acme] ⟨"", "9999", ""⟩).length ≤ (pass1 [acme] ⟨"", "", ""⟩).length :=
  pass1_monotone [acme] ⟨"", "", ""⟩ ⟨"", "9999", ""⟩
    (Or.inr (Or.inl ⟨rfl, rfl, rfl⟩))

/-- C4: the radius query returns exactly the stockists whose computed
distance from the origin is at most `r` (boundary stockists at exactly `r`
included), for every distance function; `applyNearby` is this query at the
fixed `RADIUS_KM_NEAR_ME` = 10 km radius and consults no filter criteria. -/
theorem nearby_characterisation (dist : Coord → Coord → ℚ)
    (registry : List Stockist) (origin : Coord) (r : ℚ) :
    (∀ s, s ∈ nearby dist registry origin r ↔
      s ∈ registry ∧ dist origin s.coord ≤ r) ∧
    applyNearby dist registry origin = nearby dist registry origin RADIUS_KM_NEAR_ME ∧
    RADIUS_KM_NEAR_ME = 10 := by
  refine ⟨?_, rfl, rfl⟩
  intro s
  rw [nearby, List.mem_filter, decide_eq_true_eq]

/-- C5 counterexample: `init` checks coordinates only for `NaN`, not for
range — a feed row whose latitude parses to 999 (outside [-90, 90])
still enters the registry. -/
theorem initRegistry_range_cex :
    badStockist ∈ initRegistry [badRow] ∧ (90 : ℚ) < badStockist.lat := by
  constructor
  · decide
  · decide

/-- C5 amended: every stockist in the registry comes from a feed row whose
latitude and longitude both parsed to a (non-NaN) number — rows with an
unparseable coordinate never enter the registry — but no range check is
applied, so coordinates outside [-90, 90] and [-180, 180] are admitted. -/
theorem initRegistry_coords_parsed (feed : List FeedRow) :
    ∀ s, s ∈ initRegistry feed → ∃ r, r ∈ feed ∧
      r.latitude = some s.lat ∧ r.longitude = some s.lng := by
  intro s hs
  rw [initRegistry, List.mem_filterMap] at hs
  obtain ⟨r, hr, hmk⟩ := hs
  refine ⟨r, hr, ?_⟩
  cases hla : r.latitude with
  | none => rw [hla] at hmk; exact absurd hmk (by simp)
  | some la =>
    cases hlo : r.longitude with
    | none => rw [hla, hlo] at hmk; exact absurd hmk (by simp)
    | some lo =>
      rw [hla, hlo] at hmk
      simp only [Option.some.injEq] at hmk
      subst hmk
      exact ⟨rfl, rfl⟩

/-- Witness for C5 (amended) at a concrete input: the out-of-range
stockist in the registry does come from a feed row with parsed
coordinates. -/
theorem initRegistry_coords_parsed_w :
    ∃ r, r ∈ [badRow] ∧
      r.latitude = some badStockist.lat ∧ r.longitude = some badStockist.lng :=
  initRegistry_coords_parsed [badRow] badStockist (by decide)

/-- C6 counterexample: empty criteria do not match every registry
stockist — a stockist loaded without a postcode fails the postcode
dimension even when the postcode filter is empty, so the visible set of an
all-empty search omits it. -/
theorem emptyCriteria_cex :
    initRegistry [noPcRow] = [noPc] ∧
    pass1 [noPc] ⟨"", "", ""⟩ = [] ∧
    matchesPostcode noPc (jsTrim "") = false := by
  refine ⟨by decide, by decide, by decide⟩

/-- C6 amended: an empty name pattern and an empty state filter match
every stockist; the empty postcode filter matches exactly the stockists
whose postcode field is present — a stockist with a missing postcode never
matches the postcode dimension, even against the empty filter. -/
theorem emptyCriteria_matchall (s : Stockist) (c : Criteria) :
    (c.name = "" → matchesName s (jsToLower c.name) = true) ∧
    (c.state = "" → matchesState s (jsToUpper c.state) = true) ∧
    (c.postcode = "" → matchesPostcode s (jsTrim c.postcode) = s.postcode.isSome) := by
  refine ⟨?_, ?_, ?_⟩
  · intro h; rw [h, jsToLower_empty]; exact matchesName_empty s
  · intro h; rw [h, jsToUpper_empty]; exact matchesState_empty s
  · intro h
    rw [h, jsTrim_empty]
    cases hp : s.postcode with
    | none => simp [matchesPostcode, hp]
    | some p => simp [matchesPostcode, hp, strContains_empty p]

/-- Witness for C6 (amended) at concrete inputs: empty criteria match the
stockist with a postcode on all three dimensions, and match the
postcode-less stockist on name and state but not postcode. -/
theorem emptyCriteria_matchall_w :
    matchesName acme (jsToLower "") = true ∧
    matchesState acme (jsToUpper "") = true ∧
    matchesPostcode acme (jsTrim "") = acme.postcode.isSome ∧
    matchesPostcode noPc (jsTrim "") = noPc.postcode.isSome := by
  refine ⟨?_, ?_, ?_, ?_⟩
  · exact (emptyCriteria_matchall acme ⟨"", "", ""⟩).1 rfl
  · exact (emptyCriteria_matchall acme ⟨"", "", ""⟩).2.1 rfl
  · exact (emptyCriteria_matchall acme ⟨"", "", ""⟩).2.2 rfl
  · exact (emptyCriteria_matchall noPc ⟨"", "", ""⟩).2.2 rfl

/-- A fit outcome fixture: the unconstrained bounds fit settles at zoom 3
(a country-wide zoom, coarser than the floor). -/
def flatFit : List Coord → MapState := fun _ => { center := ⟨0, 0⟩, zoom := 3 }

/-- A viewport fixture. -/
def st0 : MapState := { center := ⟨100, 100⟩, zoom := 4 }

/-- C7 counterexample: the `script.js` variant of `fitToCoords` enforces no
minimum zoom floor — when the bounds fit settles at zoom 3 for a non-empty
coordinate list, the viewport stays at zoom 3, coarser than the
`MIN_FIT_ZOOM` = 6 floor (only a maximum zoom-in cap of 12 is applied). -/
theorem fitToCoords_floor_cex :
    (fitToCoords flatFit [⟨0, 0⟩] st0).zoom = 3 ∧
    (fitToCoords flatFit [⟨0, 0⟩] st0).zoom < MIN_FIT_ZOOM := by
  constructor
  · decide
  · decide

/-- C7 amended: only the `part_000` variant of `fitToCoords` enforces the
minimum zoom floor — for every non-empty coordinate list its final zoom is
at least `MIN_FIT_ZOOM`, easing to the floor when the fit settled coarser —
while the `script.js` variant instead caps the fit at zoom 12 (a maximum
zoom-in cap) and applies no floor. -/
theorem fitToCoordsV0_floor (fit : List Coord → MapState)
    (coords : List Coord) (st : MapState) (h : coords ≠ []) :
    MIN_FIT_ZOOM ≤ (fitToCoordsV0 fit coords st).zoom ∧
    (fitToCoordsV0 fit coords st).zoom =
      (if (fit coords).zoom < MIN_FIT_ZOOM then MIN_FIT_ZOOM else (fit coords).zoom) ∧
    (fitToCoords fit coords st).zoom = min (fit coords).zoom 12 := by
  refine ⟨?_, ?_, ?_⟩
  · rw [fitToCoordsV0, if_neg h]
    by_cases hz : (fit coords).zoom < MIN_FIT_ZOOM
    · rw [if_pos hz]
    · rw [if_neg hz]
      exact le_of_not_lt hz
  · rw [fitToCoordsV0, if_neg h]
    by_cases hz : (fit coords).zoom < MIN_FIT_ZOOM
    · rw [if_pos hz, if_pos hz]
    · rw [if_neg hz, if_neg hz]
  · rw [fitToCoords, if_neg h]

/-- Witness for C7 (amended) at a concrete input: the part_000 variant
lifts the zoom-3 fit up to the floor. -/
theorem fitToCoordsV0_floor_w :
    MIN_FIT_ZOOM ≤ (fitToCoordsV0 flatFit [⟨0, 0⟩] st0).zoom ∧
    (fitToCoords flatFit [⟨0, 0⟩] st0).zoom = min (flatFit [⟨0, 0⟩]).zoom 12 := by
  have h := fitToCoordsV0_floor flatFit [⟨0, 0⟩] st0 (by decide)
  exact ⟨h.1, h.2.2⟩

/-- A fifteen-item visible-set fixture. -/
def fifteen : List Stockist := List.replicate 15 acme

/-- C8: in the narrow (mobile) layout, a visible set larger than
`MOBILE_MAX_ITEMS` = 10 renders exactly its first 10 items plus the
"Show all" affordance displaying the total count; activating the
affordance renders the full set and hides the affordance; otherwise
(10 or fewer items, or wide layout) all items render with no affordance. -/
theorem renderList_truncation (mobile : Bool) (visible : List Stockist) :
    (mobile = true → visible.length > MOBILE_MAX_ITEMS →
      renderList mobile visible =
        (visible.take MOBILE_MAX_ITEMS, some visible.length) ∧
      (renderList mobile visible).1.length = MOBILE_MAX_ITEMS ∧
      showAllClick visible = (visible, none)) ∧
    ((mobile = false ∨ visible.length ≤ MOBILE_MAX_ITEMS) →
      renderList mobile visible = (visible, none)) ∧
    MOBILE_MAX_ITEMS = 10 := by
  refine ⟨?_, ?_, rfl⟩
  · intro hm hlen
    have heq : renderList mobile visible =
        (visible.take MOBILE_MAX_ITEMS, some visible.length) := by
      rw [renderList, if_pos ⟨by rw [hm], hlen⟩]
    refine ⟨heq, ?_, rfl⟩
    rw [heq]
    simp only [List.length_take]
    exact Nat.min_eq_left (Nat.le_of_lt hlen)
  · intro h
    rw [renderList, if_neg]
    rintro ⟨h1, h2⟩
    rcases h with h | h
    · rw [h] at h1; exact absurd h1 (by simp)
    · exact absurd h2 (Nat.not_lt.2 h)

/-- Witness for C8 at a concrete input: a fifteen-item set in the mobile
layout renders ten items plus the affordance showing 15; the show-all
action renders all fifteen and hides the affordance. -/
theorem renderList_truncation_w :
    renderList true fifteen = (fifteen.take MOBILE_MAX_ITEMS, some 15) ∧
    (renderList true fifteen).1.length = MOBILE_MAX_ITEMS ∧
    showAllClick fifteen = (fifteen, none) ∧
    renderList false fifteen = (fifteen, none) := by
  have h := (renderList_truncation true fifteen).1 rfl (by decide)
  have h2 := (renderList_truncation false fifteen).2.1 (Or.inl rfl)
  exact ⟨h.1, h.2.1, h.2.2, h2⟩

/-- C9: framing an empty coordinate list is a no-op in both variants of
`fitToCoords`: the viewport state (center and zoom) is returned unchanged
and no fit command is issued. -/
theorem fitToCoords_empty_noop (fit : List Coord → MapState) (st : MapState) :
    fitToCoords fit [] st = st ∧ fitToCoordsV0 fit [] st = st := by
  constructor
  · rw [fitToCoords, if_pos rfl]
  · rw [fitToCoordsV0, if_pos rfl]

/-- C10: every feed record with a non-empty region code contributes its
uppercased region code to the state-dropdown option list, regardless of its
coordinates (the add precedes the coordinate validity check); concretely, a
feed whose only xx-state record has an unparseable latitude yields a
dropdown offering XX while the registry holds no XX stockist, so selecting
XX produces an empty visible set. -/
theorem initStates_before_coord_check :
    (∀ (feed : List FeedRow) (r : FeedRow), r ∈ feed → rowState r ≠ "" →
      rowState r ∈ initStates feed) ∧
    ("XX" ∈ initStates [ghostRow, acmeRow] ∧
      initRegistry [ghostRow, acmeRow] = [acme] ∧
      pass1 (initRegistry [ghostRow, acmeRow]) ⟨"", "", "xx"⟩ = []) := by
  constructor
  · intro feed r hr hne
    rw [initStates, List.mem_filter]
    exact ⟨List.mem_map_of_mem rowState hr, decide_eq_true hne⟩
  · exact ⟨by decide, by decide, by decide⟩

/-- Witness for C10 at a concrete input: the ghost record with an
unparseable latitude still contributes XX to the dropdown options. -/
theorem initStates_before_coord_check_w :
    rowState ghostRow ∈ initStates [ghostRow, acmeRow] :=
  initStates_before_coord_check.1 [ghostRow, acmeRow] ghostRow
    (by decide) (by decide)
